import Mathlib

/-!
# Mazaj-Backend: verification of the DJ-agent core

Shallow embedding of the song-resolution core of the Mazaj backend:

* `src/services/songSearch.js` — `checkVibeMatch` (the vibe rule engine) and
  `addSongToCatalog` (catalog enrichment, modelled together with the
  `SongCatalog` table constraints declared in the repository's schema).
* the full DJ agent (`invokeDJAgent`, file with the header
  "DJ Agent - AI-powered music curator (Full Version with YouTube)") — the
  staged resolution pipeline, modelled as a pure function over an environment
  of collaborator oracles, returning the agent's result object together with a
  chronological trace of collaborator calls and vibe checks.
* the basic agent variant `src/agents/djAgent.js` — only its
  rejection-suggestion fragment is needed.

JavaScript values are translated as follows: a nullable field becomes an
`Option`; JS truthiness of a string is "present and non-empty", of a number
"present and non-zero", of an array "present" (an empty array is truthy).
LLM-generated message strings are abstracted away (they are opaque external
text per the spec); `JSON.parse` of the extraction output is modelled by an
`Option RawParsed` input, `none` standing for a decode exception.
-/

namespace Mazaj

/-! ## String helpers mirroring the JS string operations used by the source -/

/-- `a.toLowerCase()` (ASCII case folding; all inputs in the claims are ASCII). -/
def lowerStr (s : String) : String := String.mk (s.data.map Char.toLower)

/-- Split a character list at every character satisfying `p` (the semantics
of `String.split`): adjacent separators yield empty pieces. -/
def splitChars (p : Char → Bool) : List Char → List (List Char)
  | [] => [[]]
  | c :: rest =>
    if p c then [] :: splitChars p rest
    else
      match splitChars p rest with
      | [] => [[c]]
      | w :: ws => (c :: w) :: ws

/-- JS `s.trim()`: strip leading and trailing whitespace. -/
def trimStr (s : String) : String :=
  String.mk (((s.data.dropWhile Char.isWhitespace).reverse.dropWhile
    Char.isWhitespace).reverse)

/-- JS `arr.join(sep)`. -/
def intercalateStr (sep : String) : List String → String
  | [] => ""
  | [x] => x
  | x :: y :: xs => x ++ sep ++ intercalateStr sep (y :: xs)

/-- Character-list prefix test used by `hasSeg`. -/
def segAt : List Char → List Char → Bool
  | _, [] => true
  | [], _ :: _ => false
  | a :: as, b :: bs => a == b && segAt as bs

/-- Contiguous-sublist test on character lists. -/
def hasSeg : List Char → List Char → Bool
  | [], nee => segAt [] nee
  | a :: rest, nee => segAt (a :: rest) nee || hasSeg rest nee

/-- JS `s.includes(sub)`: `sub` occurs contiguously in `s`. -/
def strContains (s sub : String) : Bool := hasSeg s.data sub.data

/-- JS `s.startsWith(pre)`. -/
def strStartsWith (s pre : String) : Bool := segAt s.data pre.data

/-- JS `s.split(/\s+/)`: split on maximal whitespace runs; a leading or
trailing whitespace run contributes one empty-string element. -/
def jsSplitWs (s : String) : List String :=
  if s = "" then [""]
  else
    let raw := (splitChars Char.isWhitespace s.data).map String.mk
    let lead : List String := if raw.head? = some "" then [""] else []
    let trail : List String := if raw.getLast? = some "" then [""] else []
    lead ++ raw.filter (fun w => w ≠ "") ++ trail

/-- JS truthiness of a nullable string: present and non-empty. -/
def optStrTruthy : Option String → Bool
  | some s => s ≠ ""
  | none => false

/-- JS truthiness of a nullable number: present and non-zero. -/
def optIntTruthy : Option Int → Bool
  | some n => n != 0
  | none => false

/-- JS truthiness of a nullable boolean: present and `true`. -/
def optBoolTruthy : Option Bool → Bool
  | some b => b
  | none => false

/-! ## Data model -/

/-- A catalog entry / candidate song, as selected by the `songSearch.js`
queries (`id`, `title`, `artist`, `album`, `year`, `youtubeId`, `coverUrl`,
`mood`, `genre`). `mood` is a nullable text array in the schema. -/
structure Song where
  title : String
  artist : String
  album : Option String := none
  year : Option Int := none
  youtubeId : Option String := none
  coverUrl : Option String := none
  mood : Option (List String) := none
  genre : Option String := none
deriving Repr, DecidableEq

/-- `vibeRules.allowedEras` with nullable `min` / `max` bounds. -/
structure EraRange where
  min : Option Int := none
  max : Option Int := none
deriving Repr, DecidableEq

/-- The vibe rule set fields read by `checkVibeMatch`. Each is nullable;
an empty list is a present (truthy) value, as in JS. -/
structure VibeRules where
  allowedMoods : Option (List String) := none
  blockedMoods : Option (List String) := none
  allowedEras : Option EraRange := none
  blockedArtists : Option (List String) := none
deriving Repr, DecidableEq

/-- `{matches, reason}` result of the vibe rule engine. -/
structure VibeCheckResult where
  «matches» : Bool
  reason : String
deriving Repr, DecidableEq

/-! ## VibeRuleEngine: `checkVibeMatch` (src/services/songSearch.js lines 110-154) -/

/-- `checkVibeMatch(song, vibeRules)`, translated clause by clause from
`src/services/songSearch.js`. Guards mirror the JS truthiness tests
(`vibeRules.blockedMoods && song.mood`, `…allowedMoods && length > 0 && song.mood`,
`vibeRules.allowedEras && song.year`, `…blockedArtists && length > 0`). -/
def checkVibeMatch (song : Song) (vibeRules : Option VibeRules) : VibeCheckResult :=
  match vibeRules with
  | none => { «matches» := true, reason := "No rules set" }
  | some rules =>
    let blockedMoodHit : Option String :=
      match rules.blockedMoods, song.mood with
      | some blocked, some sm => blocked.find? (fun m => sm.contains (lowerStr m))
      | _, _ => none
    match blockedMoodHit with
    | some blockedMood =>
      { «matches» := false
        reason := "Song mood \"" ++ blockedMood ++ "\" is not allowed for this vibe" }
    | none =>
      let allowedMoodFail : Bool :=
        match rules.allowedMoods, song.mood with
        | some am, some sm => am.length > 0 && !(am.any (fun m => sm.contains (lowerStr m)))
        | _, _ => false
      if allowedMoodFail then
        { «matches» := false
          reason := "Song doesn't match the required mood (" ++
            intercalateStr ", " ((rules.allowedMoods).getD []) ++ ")" }
      else
        let eraFail : Option String :=
          match rules.allowedEras, song.year with
          | some eras, some y =>
            if y != 0 then
              if optIntTruthy eras.min && decide (y < (eras.min).getD 0) then
                some ("Song is from " ++ toString y ++ ", but party requires " ++
                  toString ((eras.min).getD 0) ++ "+")
              else if optIntTruthy eras.max && decide (y > (eras.max).getD 0) then
                some ("Song is from " ++ toString y ++ ", but party is for pre-" ++
                  toString ((eras.max).getD 0))
              else none
            else none
          | _, _ => none
        match eraFail with
        | some r => { «matches» := false, reason := r }
        | none =>
          let blockedArtistHit : Bool :=
            match rules.blockedArtists with
            | some ba => ba.length > 0 &&
                ba.any (fun a => strContains (lowerStr song.artist) (lowerStr a))
            | none => false
          if blockedArtistHit then
            { «matches» := false
              reason := "Artist \"" ++ song.artist ++ "\" is blocked for this party" }
          else
            { «matches» := true, reason := "Song matches the vibe!" }

/-! ## Ordered-check reference for the rule engine (spec §4.3)

The spec states the engine runs four checks in a fixed order, first failure
wins, with a permissive default for an absent rule set. Each check below is
the corresponding clause of `checkVibeMatch`, factored out; `evaluateOrdered`
composes them by first-failure over the explicitly ordered list. -/

/-- Spec check 1: entry.mood intersects ruleSet.blockedMoods → fail. -/
def blockedMoodsCheck (song : Song) (r : VibeRules) : Option String :=
  match r.blockedMoods, song.mood with
  | some blocked, some sm =>
    match blocked.find? (fun m => sm.contains (lowerStr m)) with
    | some blockedMood =>
      some ("Song mood \"" ++ blockedMood ++ "\" is not allowed for this vibe")
    | none => none
  | _, _ => none

/-- Spec check 2: allowedMoods non-empty and entry.mood disjoint from it → fail. -/
def allowedMoodsCheck (song : Song) (r : VibeRules) : Option String :=
  let fail : Bool :=
    match r.allowedMoods, song.mood with
    | some am, some sm => am.length > 0 && !(am.any (fun m => sm.contains (lowerStr m)))
    | _, _ => false
  if fail then
    some ("Song doesn't match the required mood (" ++
      intercalateStr ", " ((r.allowedMoods).getD []) ++ ")")
  else none

/-- Spec check 3: entry.year present and outside the era range (only present
bounds checked) → fail. -/
def eraBoundsCheck (song : Song) (r : VibeRules) : Option String :=
  match r.allowedEras, song.year with
  | some eras, some y =>
    if y != 0 then
      if optIntTruthy eras.min && decide (y < (eras.min).getD 0) then
        some ("Song is from " ++ toString y ++ ", but party requires " ++
          toString ((eras.min).getD 0) ++ "+")
      else if optIntTruthy eras.max && decide (y > (eras.max).getD 0) then
        some ("Song is from " ++ toString y ++ ", but party is for pre-" ++
          toString ((eras.max).getD 0))
      else none
    else none
  | _, _ => none

/-- Spec check 4: entry.artist case-insensitively contains a blocked artist → fail. -/
def blockedArtistsCheck (song : Song) (r : VibeRules) : Option String :=
  let hit : Bool :=
    match r.blockedArtists with
    | some ba => ba.length > 0 &&
        ba.any (fun a => strContains (lowerStr song.artist) (lowerStr a))
    | none => false
  if hit then some ("Artist \"" ++ song.artist ++ "\" is blocked for this party")
  else none

/-- The spec's stated check order: blocked moods, allowed moods, era bounds,
blocked artists. -/
def orderedChecks : List (Song → VibeRules → Option String) :=
  [blockedMoodsCheck, allowedMoodsCheck, eraBoundsCheck, blockedArtistsCheck]

/-- Reference evaluator written from the spec's words: absent rule set is a
permissive match; otherwise run `orderedChecks` in order, the first failing
check's reason wins, and no failure means a match. -/
def evaluateOrdered (song : Song) (rules : Option VibeRules) : VibeCheckResult :=
  match rules with
  | none => { «matches» := true, reason := "No rules set" }
  | some r =>
    match orderedChecks.findSome? (fun chk => chk song r) with
    | some reason => { «matches» := false, reason := reason }
    | none => { «matches» := true, reason := "Song matches the vibe!" }

/-! ## The DJ agent pipeline (full YouTube version)

`invokeDJAgent` is modelled as a pure function of a collaborator environment
`Env` and the already-parsed structured request, returning the agent's result
object and a chronological trace of collaborator calls / vibe checks. Each
early `return` in the source becomes a `Sum.inl`. -/

/-- Result of the external YouTube discovery collaborator
(`searchYouTube` in src/services/youtubeSearch.js): a normalized
`{title, artist, youtubeId, coverUrl, year}` record. -/
structure YTResult where
  title : String
  artist : String
  youtubeId : Option String := none
  coverUrl : Option String := none
  year : Int := 0
deriving Repr, DecidableEq

/-- Result of the external classification collaborator (`analyzeSong` in
src/services/songAnalyzer.js); its fallbacks guarantee `mood` and `genre`
are always present (`analysis.mood || ['energetic']`, `analysis.genre || 'Pop'`). -/
structure Analysis where
  mood : List String := []
  genre : String := ""
  energy : Int := 5
deriving Repr, DecidableEq

/-- The structured request as decoded from the extraction LLM's JSON output.
Every field is optional: a missing JSON field is JS `undefined` (falsy). -/
structure RawParsed where
  title : Option String := none
  artist : Option String := none
  isRequest : Option Bool := none
  searchVariations : Option (List String) := none
deriving Repr, DecidableEq

/-- Collaborator environment: the external capabilities the agent calls,
as deterministic oracles for one run. -/
structure Env where
  findExactSong : String → String → Option Song
  searchSongsByText : String → Nat → List Song
  searchSongsBySemantic : String → Nat → List Song
  getSongsByMood : List String → Nat → List Song
  searchYouTube : String → Option YTResult
  analyzeSong : String → String → Int → Analysis

/-- One observable step of a run: a collaborator call, a vibe check (with its
outcome), or a catalog write (`addSongToCatalog`). -/
inductive Ev where
  | exact (title artist : String)
  | text (q : String) (limit : Nat)
  | semantic (q : String) (limit : Nat)
  | mood (moods : List String) (limit : Nat)
  | youtube (q : String)
  | analyze (title artist : String)
  | addSong (title artist : String)
  | vibe (title : String) (ok : Bool)
deriving Repr, DecidableEq

/-- The `song` projection returned on acceptance
(`{title, artist, coverUrl, youtubeId, mood, year}`). -/
structure SongOut where
  title : String
  artist : String
  coverUrl : Option String
  youtubeId : Option String
  mood : Option (List String)
  year : Option Int
deriving Repr, DecidableEq

def projectSong (s : Song) : SongOut :=
  { title := s.title, artist := s.artist, coverUrl := s.coverUrl,
    youtubeId := s.youtubeId, mood := s.mood, year := s.year }

/-- The agent's returned object. The LLM-generated `message` text is opaque
external output and not modelled; `type` is the JS string tag. -/
structure AgentResult where
  type : String
  song : Option SongOut
  suggestion : Option Song := none
  options : Option (List Song) := none
deriving Repr, DecidableEq

/-- The song object built from a YouTube hit plus its analysis
(`tempSong` / the Step-3 `song` object in the source). -/
def songFromYoutube (y : YTResult) (a : Analysis) : Song :=
  { title := y.title, artist := y.artist, youtubeId := y.youtubeId,
    coverUrl := y.coverUrl, year := some y.year,
    mood := some a.mood, genre := some a.genre }

/-- Semantic-search hit validation (Step 2.2 of the source): title word-overlap
check when a title was requested, artist containment heuristic when an artist
was requested. The JS threshold `matchingWords.length < titleWords.length * 0.5`
is computed in binary floating point where multiplication by `0.5` and the
comparison are exact, so it equals the integer comparison used here. -/
def semanticHitValid (parsed : RawParsed) (result : Song) : Bool :=
  let foundTitle := lowerStr result.title
  let foundArtist := lowerStr result.artist
  let titleOk : Bool :=
    if optStrTruthy parsed.title then
      let requestedTitle := lowerStr ((parsed.title).getD "")
      let titleWords := (jsSplitWs requestedTitle).filter (fun w => w.length > 2)
      let matchingWords := titleWords.filter (fun w => strContains foundTitle w)
      !(decide (matchingWords.length * 2 < titleWords.length))
    else true
  let artistOk : Bool :=
    if optStrTruthy parsed.artist then
      let requestedArtist := lowerStr ((parsed.artist).getD "")
      strContains foundArtist requestedArtist ||
      strContains requestedArtist foundArtist ||
      (jsSplitWs requestedArtist).any (fun w => strContains foundArtist w && w.length > 2)
    else true
  titleOk && artistOk

/-- Text-search fallback match predicate (Step 2.3 of the source). The JS
proportional-containment threshold `foundTitle.length > queryLower.length * 0.7`
is computed in floating point; it coincides with the exact rational comparison
below for all lengths under 90, far beyond any input considered here. -/
def textMatchPred (parsed : RawParsed) (query : String) (s : Song) : Bool :=
  let foundTitle := trimStr (lowerStr s.title)
  let queryLower := trimStr (lowerStr query)
  let titleMatch : Bool :=
    foundTitle == queryLower ||
    strStartsWith foundTitle (queryLower ++ " ") ||
    strStartsWith foundTitle (queryLower ++ "(") ||
    (strContains queryLower foundTitle &&
      decide (foundTitle.length * 10 > queryLower.length * 7))
  if !titleMatch then false
  else if !(optStrTruthy parsed.artist) then true
  else
    let requestedArtist := lowerStr ((parsed.artist).getD "")
    let foundArtist := lowerStr s.artist
    if strContains foundArtist requestedArtist ||
       strContains requestedArtist foundArtist then true
    else
      (jsSplitWs requestedArtist).any (fun rw =>
        (jsSplitWs foundArtist).any (fun fw => strContains fw rw || strContains rw fw))

/-- The artist-only exploration's filter loop: check every fetched song against
the rules (logging each check), keep the passes in order. -/
def filterVibeAll (rules : Option VibeRules) : List Song → List Song × List Ev
  | [] => ([], [])
  | s :: rest =>
    let c := checkVibeMatch s rules
    let (ms, evs) := filterVibeAll rules rest
    (if c.«matches» then s :: ms else ms, Ev.vibe s.title c.«matches» :: evs)

/-- The suggestion loops of Step 5: push each song that passes the full vibe
check, stop as soon as three are collected. -/
def collectSuggestions (rules : Option VibeRules) (acc : List Song) :
    List Song → List Song × List Ev
  | [] => (acc, [])
  | s :: rest =>
    let c := checkVibeMatch s rules
    if c.«matches» then
      let acc2 := acc ++ [s]
      if acc2.length ≥ 3 then (acc2, [Ev.vibe s.title c.«matches»])
      else
        let (out, evs) := collectSuggestions rules acc2 rest
        (out, Ev.vibe s.title c.«matches» :: evs)
    else
      let (out, evs) := collectSuggestions rules acc rest
      (out, Ev.vibe s.title c.«matches» :: evs)

/-- The SuggestionFinder (Step 5 of the source, lines 428-452): same-artist
pool first (text search, limit 20), then — only if that produced nothing and
`vibeRules?.allowedMoods` is present — the mood pool (limit 20); both filtered
through `collectSuggestions`. -/
def buildSuggestions (env : Env) (parsed : RawParsed) (rules : Option VibeRules) :
    List Song × List Ev :=
  let artist := (parsed.artist).getD ""
  let first : List Song × List Ev :=
    if optStrTruthy parsed.artist then
      ((collectSuggestions rules [] (env.searchSongsByText artist 20)).1,
       Ev.text artist 20 :: (collectSuggestions rules [] (env.searchSongsByText artist 20)).2)
    else ([], [])
  if first.1.length == 0 then
    match rules with
    | some r =>
      match r.allowedMoods with
      | some moods =>
        ((collectSuggestions rules [] (env.getSongsByMood moods 20)).1,
         first.2 ++ (Ev.mood moods 20 ::
           (collectSuggestions rules [] (env.getSongsByMood moods 20)).2))
      | none => first
    | none => first
  else first

/-- Stage B, the artist-only exploration branch (`!parsed.title && parsed.artist`):
fetch up to 20 songs by artist, filter by the rules; exactly one pass resolves
it, several passes return a disambiguation chat with up to 5 options, zero
passes fall to YouTube with an `artist + leading-allowed-mood + "song"` query,
whose hit is vibe-checked and, on a pass, enriched into the catalog. -/
def artistOnlyStage (env : Env) (parsed : RawParsed) (rules : Option VibeRules) :
    (AgentResult × List Ev) ⊕ (Option Song × List Ev) :=
  if !(optStrTruthy parsed.title) && optStrTruthy parsed.artist then
    let artist := (parsed.artist).getD ""
    let artistSongs := env.searchSongsByText artist 20
    let matchingSongs := (filterVibeAll rules artistSongs).1
    let tr := Ev.text artist 20 :: (filterVibeAll rules artistSongs).2
    if matchingSongs.length == 1 then
      Sum.inr (matchingSongs.head?, tr)
    else if matchingSongs.length > 1 then
      Sum.inl ({ type := "CHAT", song := none, suggestion := none,
                 options := some (matchingSongs.take 5) }, tr)
    else
      let moodKeyword :=
        match rules with
        | some r => ((r.allowedMoods).getD []).headD ""
        | none => ""
      let searchQuery := artist ++ " " ++ moodKeyword ++ " song"
      match env.searchYouTube searchQuery with
      | some y =>
        let analysis := env.analyzeSong y.title y.artist y.year
        let tempSong := songFromYoutube y analysis
        let c := checkVibeMatch tempSong rules
        let tr2 := tr ++ [Ev.youtube searchQuery, Ev.analyze y.title y.artist,
                          Ev.vibe tempSong.title c.«matches»]
        if c.«matches» then
          Sum.inr (some tempSong, tr2 ++ [Ev.addSong tempSong.title tempSong.artist])
        else
          Sum.inl ({ type := "CHAT", song := none, suggestion := none,
                     options := none }, tr2)
      | none =>
        Sum.inl ({ type := "CHAT", song := none, suggestion := none,
                   options := none }, tr ++ [Ev.youtube searchQuery])
  else
    Sum.inr (none, [])

/-- Stage A, exact catalog match: runs only when both artist and title are
present. -/
def exactStage (env : Env) (parsed : RawParsed) (song : Option Song) (tr : List Ev) :
    Option Song × List Ev :=
  if optStrTruthy parsed.artist && optStrTruthy parsed.title then
    let t := (parsed.title).getD ""
    let a := (parsed.artist).getD ""
    (env.findExactSong t a, tr ++ [Ev.exact t a])
  else (song, tr)

/-- `searchQueries = [parsed.title, ...searchVariations]`; falsy entries are
skipped by the loops (`if (!query) continue`). -/
def searchQueries (parsed : RawParsed) : List (Option String) :=
  parsed.title :: ((parsed.searchVariations).getD []).map some

/-- Stage C inner loop: for each truthy query (optionally joined with artist),
fetch 10 semantic hits and take the first that validates. -/
def semanticLoop (env : Env) (parsed : RawParsed) :
    List (Option String) → Option Song × List Ev
  | [] => (none, [])
  | q :: rest =>
    if !(optStrTruthy q) then semanticLoop env parsed rest
    else
      let query := q.getD ""
      let searchText :=
        if optStrTruthy parsed.artist then query ++ " " ++ (parsed.artist).getD ""
        else query
      let results := env.searchSongsBySemantic searchText 10
      match results.find? (fun r => semanticHitValid parsed r) with
      | some s => (some s, [Ev.semantic searchText 10])
      | none =>
        let (song, evs) := semanticLoop env parsed rest
        (song, Ev.semantic searchText 10 :: evs)

/-- Stage C, guarded by `if (!song)`. -/
def semanticStage (env : Env) (parsed : RawParsed) (song : Option Song)
    (tr : List Ev) : Option Song × List Ev :=
  match song with
  | some s => (some s, tr)
  | none =>
    ((semanticLoop env parsed (searchQueries parsed)).1,
     tr ++ (semanticLoop env parsed (searchQueries parsed)).2)

/-- Stage D inner loop: for each truthy query, fetch 5 text hits and take the
first satisfying `textMatchPred`. -/
def textLoop (env : Env) (parsed : RawParsed) :
    List (Option String) → Option Song × List Ev
  | [] => (none, [])
  | q :: rest =>
    if !(optStrTruthy q) then textLoop env parsed rest
    else
      let query := q.getD ""
      let results := env.searchSongsByText query 5
      match results.find? (fun s => textMatchPred parsed query s) with
      | some s => (some s, [Ev.text query 5])
      | none =>
        let (song, evs) := textLoop env parsed rest
        (song, Ev.text query 5 :: evs)

/-- Stage D, guarded by `if (!song)`. -/
def textStage (env : Env) (parsed : RawParsed) (song : Option Song)
    (tr : List Ev) : Option Song × List Ev :=
  match song with
  | some s => (some s, tr)
  | none =>
    ((textLoop env parsed (searchQueries parsed)).1,
     tr ++ (textLoop env parsed (searchQueries parsed)).2)

/-- Stage E's search query: title+artist, title alone, artist plus
`" official music video"`, or nothing. -/
def buildYoutubeQuery (parsed : RawParsed) : Option String :=
  if optStrTruthy parsed.title && optStrTruthy parsed.artist then
    some ((parsed.title).getD "" ++ " " ++ (parsed.artist).getD "")
  else if optStrTruthy parsed.title then some ((parsed.title).getD "")
  else if optStrTruthy parsed.artist then
    some ((parsed.artist).getD "" ++ " official music video")
  else none

/-- Stage E, external discovery (Step 3 of the source): on a YouTube hit the
song is analyzed and written to the catalog (`addSongToCatalog`) right away —
before the Step-5 vibe check. -/
def youtubeStage (env : Env) (parsed : RawParsed) (song : Option Song)
    (tr : List Ev) : Option Song × List Ev :=
  match song with
  | some s => (some s, tr)
  | none =>
    match buildYoutubeQuery parsed with
    | none => (none, tr)
    | some q =>
      match env.searchYouTube q with
      | none => (none, tr ++ [Ev.youtube q])
      | some y =>
        let analysis := env.analyzeSong y.title y.artist y.year
        let s := songFromYoutube y analysis
        (some s, tr ++ [Ev.youtube q, Ev.analyze y.title y.artist,
                        Ev.addSong s.title s.artist])

/-- The full agent run (the "Full Version with YouTube" `invokeDJAgent`),
from the already-parsed request to the returned object plus call trace. -/
def invokeDJAgent (env : Env) (parsed : RawParsed) (vibeRules : Option VibeRules) :
    AgentResult × List Ev :=
  if !(optBoolTruthy parsed.isRequest) then
    ({ type := "CHAT", song := none, suggestion := none, options := none }, [])
  else
    match artistOnlyStage env parsed vibeRules with
    | Sum.inl early => early
    | Sum.inr st =>
      let s1 := exactStage env parsed st.1 st.2
      let s2 := semanticStage env parsed s1.1 s1.2
      let s3 := textStage env parsed s2.1 s2.2
      let s4 := youtubeStage env parsed s3.1 s3.2
      match s4.1 with
      | none =>
        ({ type := "AI_DENY", song := none, suggestion := none, options := none }, s4.2)
      | some song =>
        let c := checkVibeMatch song vibeRules
        let tr5 := s4.2 ++ [Ev.vibe song.title c.«matches»]
        if !c.«matches» then
          ({ type := "AI_DENY", song := none,
             suggestion := (buildSuggestions env parsed vibeRules).1.head?,
             options := none }, tr5 ++ (buildSuggestions env parsed vibeRules).2)
        else
          ({ type := "AI_ACCEPT", song := some (projectSong song),
             suggestion := none, options := none }, tr5)

/-- The catch-value of `parseSongRequest`: `{ isRequest: false }`. -/
def fallbackParsed : RawParsed :=
  { title := none, artist := none, isRequest := some false, searchVariations := none }

/-- `parseSongRequest`: the LLM call, code-fence stripping and `JSON.parse`
are host-runtime effects; `decoded` is their combined outcome — `none` models
a decode exception (the `catch` branch), and absent fields of a `some` model
fields missing from the parsed object. -/
def parseSongRequest (decoded : Option RawParsed) : RawParsed :=
  decoded.getD fallbackParsed

/-- The rejection-suggestion fragment of the basic agent variant
(src/agents/djAgent.js lines 166-171): on a failed vibe check, suggestions are
taken directly from `getSongsByMood(vibeRules.allowedMoods, 3)` with no
re-validation. -/
def basicAgentSuggestions (env : Env) (vibeRules : Option VibeRules) : List Song :=
  match vibeRules with
  | some r =>
    match r.allowedMoods with
    | some moods => env.getSongsByMood moods 3
    | none => []
  | none => []

/-! ## Catalog persistence model for enrichment

`addSongToCatalog` runs
`INSERT INTO "SongCatalog" (id, ...) VALUES (gen_random_uuid(), ...) ON CONFLICT DO NOTHING RETURNING *`.
Postgres `ON CONFLICT DO NOTHING` (without a conflict target) skips the insert
exactly when the new row violates some declared uniqueness constraint. Per the
repository's schema dump, `SongCatalog` declares a single such constraint:
`CONSTRAINT SongCatalog_pkey PRIMARY KEY (id)` — there is no unique
constraint on `(title, artist)`. `gen_random_uuid()` is modelled by the fresh
counter `nextId`; the embedding computation does not affect row identity and
is elided. -/

/-- One stored `SongCatalog` row (embedding elided). -/
structure CatalogRow where
  id : Nat
  title : String
  artist : String
  year : Option Int := none
  youtubeId : Option String := none
  coverUrl : Option String := none
  mood : List String := []
  genre : Option String := none
deriving Repr, DecidableEq

/-- The `SongCatalog` table state; `nextId` supplies fresh uuids. -/
structure Catalog where
  rows : List CatalogRow := []
  nextId : Nat := 0
deriving Repr, DecidableEq

/-- Whether inserting `row` violates a uniqueness constraint declared on
`SongCatalog` — only the primary key on `id` exists in the schema. -/
def violatesDeclaredConstraint (cat : Catalog) (row : CatalogRow) : Bool :=
  cat.rows.any (fun r => r.id == row.id)

/-- `addSongToCatalog(song, analysis)` (src/services/songSearch.js
lines 159-202): insert a fresh-id row with the song's fields and the
analysis' mood/genre under `ON CONFLICT DO NOTHING`. -/
def addSongToCatalog (cat : Catalog) (song : Song) (analysis : Analysis) :
    Catalog × Option CatalogRow :=
  let row : CatalogRow :=
    { id := cat.nextId, title := song.title, artist := song.artist,
      year := song.year, youtubeId := song.youtubeId, coverUrl := song.coverUrl,
      mood := analysis.mood,
      genre := if analysis.genre ≠ "" then some analysis.genre else none }
  if violatesDeclaredConstraint cat row then (cat, none)
  else ({ rows := cat.rows ++ [row], nextId := cat.nextId + 1 }, some row)

/-- Rows of the catalog holding a given (title, artist) identity. -/
def rowsFor (cat : Catalog) (title artist : String) : List CatalogRow :=
  cat.rows.filter (fun r => r.title == title && r.artist == artist)

/-! ## Trace predicates -/

/-- The event is a catalog write. -/
def isAddSongEv : Ev → Bool
  | Ev.addSong _ _ => true
  | _ => false

/-- The event is a vibe check that passed. -/
def isPassedVibeEv : Ev → Bool
  | Ev.vibe _ true => true
  | _ => false

/-- The event is an external-discovery (YouTube) call. -/
def isDiscoveryEv : Ev → Bool
  | Ev.youtube _ => true
  | _ => false

/-- The event is a call to any search collaborator: exact catalog lookup, text
search, semantic search, mood lookup, or external discovery. -/
def isSearchCollabEv : Ev → Bool
  | Ev.exact _ _ => true
  | Ev.text _ _ => true
  | Ev.semantic _ _ => true
  | Ev.mood _ _ => true
  | Ev.youtube _ => true
  | _ => false

/-- The event belongs to a post-Stage-A resolution stage: semantic search
(Stage C), the text-search fallback (Stage D, always limit 5 — the suggestion
finder's text searches use limit 20), or YouTube discovery (Stage E). -/
def isLaterStageEv : Ev → Bool
  | Ev.semantic _ _ => true
  | Ev.youtube _ => true
  | Ev.text _ n => n == 5
  | _ => false

/-- The event is a vibe check (of either outcome). -/
def isVibeEv : Ev → Bool
  | Ev.vibe _ _ => true
  | _ => false

/-- Scan helper: every `addSong` event must be preceded by an event satisfying
`p`; `ok` records whether one has been seen. -/
def writesGuardedFrom (p : Ev → Bool) (ok : Bool) : List Ev → Bool
  | [] => true
  | e :: rest => (!(isAddSongEv e) || ok) && writesGuardedFrom p (ok || p e) rest

/-- Every catalog write in the trace is preceded by an event satisfying `p`. -/
def writesGuarded (p : Ev → Bool) (tr : List Ev) : Bool :=
  writesGuardedFrom p false tr

/-! ## Concrete fixtures for counterexamples and witnesses -/

/-- Environment in which every collaborator yields nothing. -/
def emptyEnv : Env :=
  { findExactSong := fun _ _ => none
    searchSongsByText := fun _ _ => []
    searchSongsBySemantic := fun _ _ => []
    getSongsByMood := fun _ _ => []
    searchYouTube := fun _ => none
    analyzeSong := fun _ _ _ => {} }

def happyRules : VibeRules := { allowedMoods := some ["happy"] }

def happyNoDrakeRules : VibeRules :=
  { allowedMoods := some ["happy"], blockedArtists := some ["Drake"] }

def sadYtHit : YTResult :=
  { title := "Moonlight Drive", artist := "The Doors",
    youtubeId := some "yt1", coverUrl := some "cover1", year := 1967 }

def sadAnalysis : Analysis := { mood := ["sad"], genre := "Rock", energy := 3 }

/-- A titled request that misses the catalog and hits YouTube with a song
whose analyzed mood fails `happyRules`. -/
def discoveryEnv : Env :=
  { emptyEnv with
    searchYouTube := fun _ => some sadYtHit
    analyzeSong := fun _ _ _ => sadAnalysis }

def titledParsed : RawParsed :=
  { title := some "Moonlight Drive", artist := some "The Doors",
    isRequest := some true, searchVariations := some [] }

def helloSong : Song :=
  { title := "Hello", artist := "Adele", year := some 2015,
    mood := some ["sad"], genre := some "Pop" }

/-- Environment whose semantic search returns a hit for the query "hello". -/
def semanticEnv : Env :=
  { emptyEnv with
    searchSongsBySemantic := fun q _ => if q = "hello" then [helloSong] else [] }

/-- A request with null title and null artist but a non-empty variation list. -/
def noFieldsParsed : RawParsed :=
  { title := none, artist := none, isRequest := some true,
    searchVariations := some ["hello"] }

/-- A mood-matching song by a blocked artist. -/
def drakeSong : Song :=
  { title := "Party Anthem", artist := "Drake", year := some 2020,
    mood := some ["happy"], genre := some "Rap" }

/-- Environment whose mood lookup returns the blocked-artist song. -/
def moodEnv : Env :=
  { emptyEnv with getSongsByMood := fun _ _ => [drakeSong] }

def exactSong : Song :=
  { title := "Blinding Lights", artist := "The Weeknd", year := some 2019,
    mood := some ["energetic"], genre := some "Pop" }

/-- Environment with an exact catalog match for the witness request. -/
def exactEnv : Env :=
  { emptyEnv with
    findExactSong := fun t a =>
      if t = "Blinding Lights" && a = "The Weeknd" then some exactSong else none }

def exactParsed : RawParsed :=
  { title := some "Blinding Lights", artist := some "The Weeknd",
    isRequest := some true, searchVariations := some [] }

/-- A song with no mood field, for the null-mood bypass claim. -/
def moodlessSong : Song :=
  { title := "Instrumental Jam", artist := "Unknown Band", year := some 2020,
    mood := none }

/-- An artist-only request (null title). -/
def artistParsed : RawParsed :=
  { title := none, artist := some "Adele", isRequest := some true,
    searchVariations := none }

/-- A request with neither title nor artist and no variations. -/
def emptyReqParsed : RawParsed :=
  { title := none, artist := none, isRequest := some true,
    searchVariations := none }

/-- The significant words of a requested title: words of length > 2 after
lowercasing, as computed by the Stage-C hit validation. -/
def significantWords (t : String) : List String :=
  (jsSplitWs (lowerStr t)).filter (fun w => w.length > 2)

/-- The significant words of the requested title that occur in the found
title (lowercased substring containment), as computed by Stage C. -/
def overlapWords (t found : String) : List String :=
  (significantWords t).filter (fun w => strContains (lowerStr found) w)

/-- Verification invariant on the outcome of the artist-only stage: an early
return carries no song, is a CHAT-typed result and performed no catalog write;
a fall-through's trace has every write preceded by a passed vibe check and by
a discovery call. -/
def artistOnlyInv : (AgentResult × List Ev) ⊕ (Option Song × List Ev) → Prop
  | Sum.inl er => er.1.song = none ∧ er.1.type = "CHAT" ∧
      ∀ e ∈ er.2, isAddSongEv e = false
  | Sum.inr st => writesGuardedFrom isPassedVibeEv false st.2 = true ∧
      writesGuardedFrom isDiscoveryEv false st.2 = true

/-! ## Helper lemmas about the loops and traces -/

theorem filterVibeAll_evs (rules : Option VibeRules) (songs : List Song) :
    ∀ e ∈ (filterVibeAll rules songs).2, isVibeEv e = true := by
  induction songs with
  | nil => intro e he; simp [filterVibeAll] at he
  | cons s rest ih =>
    intro e he
    simp only [filterVibeAll] at he
    rcases hrec : filterVibeAll rules rest with ⟨ms, evs⟩
    rw [hrec] at he
    simp only [List.mem_cons] at he
    rcases he with rfl | he
    · rfl
    · exact ih e (by rw [hrec]; exact he)

theorem filterVibeAll_mem (rules : Option VibeRules) (songs : List Song) (s : Song) :
    s ∈ (filterVibeAll rules songs).1 → (checkVibeMatch s rules).«matches» = true := by
  induction songs with
  | nil => intro h; simp [filterVibeAll] at h
  | cons s0 rest ih =>
    intro h
    simp only [filterVibeAll] at h
    rcases hrec : filterVibeAll rules rest with ⟨ms, evs⟩
    rw [hrec] at h
    by_cases hc : (checkVibeMatch s0 rules).«matches»
    · simp only [hc, if_pos] at h
      rcases List.mem_cons.mp h with rfl | h
      · exact hc
      · exact ih (by rw [hrec]; exact h)
    · simp only [if_neg hc] at h
      · exact ih (by rw [hrec]; simpa using h)

theorem collectSuggestions_evs (rules : Option VibeRules) (songs : List Song) :
    ∀ acc, ∀ e ∈ (collectSuggestions rules acc songs).2, isVibeEv e = true := by
  induction songs with
  | nil => intro acc e he; simp [collectSuggestions] at he
  | cons s rest ih =>
    intro acc e he
    simp only [collectSuggestions] at he
    by_cases hc : (checkVibeMatch s rules).«matches»
    · simp only [hc, if_pos] at he
      by_cases hlen : (acc ++ [s]).length ≥ 3
      · simp only [if_pos hlen] at he
        simp only [List.mem_singleton] at he
        subst he; rfl
      · simp only [if_neg hlen] at he
        rcases hrec : collectSuggestions rules (acc ++ [s]) rest with ⟨out, evs⟩
        rw [hrec] at he
        rcases List.mem_cons.mp he with rfl | he
        · rfl
        · exact ih (acc ++ [s]) e (by rw [hrec]; exact he)
    · simp only [if_neg hc] at he
      rcases hrec : collectSuggestions rules acc rest with ⟨out, evs⟩
      rw [hrec] at he
      rcases List.mem_cons.mp he with rfl | he
      · rfl
      · exact ih acc e (by rw [hrec]; exact he)

theorem collectSuggestions_sound (rules : Option VibeRules) (songs : List Song) :
    ∀ acc, acc.length < 3 →
      (∀ s ∈ acc, (checkVibeMatch s rules).«matches» = true) →
      (collectSuggestions rules acc songs).1.length ≤ 3 ∧
      ∀ s ∈ (collectSuggestions rules acc songs).1,
        (checkVibeMatch s rules).«matches» = true := by
  induction songs with
  | nil =>
    intro acc hlen hacc
    simp only [collectSuggestions]
    exact ⟨Nat.le_of_lt hlen, hacc⟩
  | cons s rest ih =>
    intro acc hlen hacc
    simp only [collectSuggestions]
    by_cases hc : (checkVibeMatch s rules).«matches»
    · simp only [hc, if_pos]
      have hacc2 : ∀ x ∈ acc ++ [s], (checkVibeMatch x rules).«matches» = true := by
        intro x hx
        rcases List.mem_append.mp hx with hx | hx
        · exact hacc x hx
        · rcases List.mem_singleton.mp hx with rfl
          exact hc
      by_cases hlen2 : (acc ++ [s]).length ≥ 3
      · simp only [if_pos hlen2]
        refine ⟨?_, hacc2⟩
        simp only [List.length_append, List.length_singleton]
        omega
      · simp only [if_neg hlen2]
        rcases hrec : collectSuggestions rules (acc ++ [s]) rest with ⟨out, evs⟩
        have := ih (acc ++ [s]) (by simp only [List.length_append] at hlen2 ⊢; omega) hacc2
        rw [hrec] at this
        exact this
    · simp only [if_neg hc]
      rcases hrec : collectSuggestions rules acc rest with ⟨out, evs⟩
      have := ih acc hlen hacc
      rw [hrec] at this
      exact this

theorem semanticLoop_evs (env : Env) (parsed : RawParsed) (qs : List (Option String)) :
    ∀ e ∈ (semanticLoop env parsed qs).2, isAddSongEv e = false := by
  induction qs with
  | nil => intro e he; simp [semanticLoop] at he
  | cons q rest ih =>
    intro e he
    simp only [semanticLoop] at he
    by_cases hq : optStrTruthy q
    · simp only [hq] at he
      simp only [Bool.not_true, Bool.false_eq_true, if_false] at he
      rcases hfind : List.find? (fun r => semanticHitValid parsed r)
          (env.searchSongsBySemantic
            (if optStrTruthy parsed.artist = true then q.getD "" ++ " " ++ (parsed.artist).getD ""
             else q.getD "") 10) with _ | s
      · rw [hfind] at he
        rcases hrec : semanticLoop env parsed rest with ⟨song, evs⟩
        rw [hrec] at he
        rcases List.mem_cons.mp he with rfl | he
        · rfl
        · exact ih e (by rw [hrec]; exact he)
      · rw [hfind] at he
        rcases List.mem_singleton.mp he with rfl
        rfl
    · simp only [hq] at he
      simp only [Bool.not_false, if_true] at he
      exact ih e he

theorem textLoop_evs (env : Env) (parsed : RawParsed) (qs : List (Option String)) :
    ∀ e ∈ (textLoop env parsed qs).2, isAddSongEv e = false := by
  induction qs with
  | nil => intro e he; simp [textLoop] at he
  | cons q rest ih =>
    intro e he
    simp only [textLoop] at he
    by_cases hq : optStrTruthy q
    · simp only [hq] at he
      simp only [Bool.not_true, Bool.false_eq_true, if_false] at he
      rcases hfind : List.find? (fun s => textMatchPred parsed (q.getD "") s)
          (env.searchSongsByText (q.getD "") 5) with _ | s
      · rw [hfind] at he
        rcases hrec : textLoop env parsed rest with ⟨song, evs⟩
        rw [hrec] at he
        rcases List.mem_cons.mp he with rfl | he
        · rfl
        · exact ih e (by rw [hrec]; exact he)
      · rw [hfind] at he
        rcases List.mem_singleton.mp he with rfl
        rfl
    · simp only [hq] at he
      simp only [Bool.not_false, if_true] at he
      exact ih e he

theorem writesGuardedFrom_append (p : Ev → Bool) (tr1 : List Ev) :
    ∀ (ok : Bool) (tr2 : List Ev),
      writesGuardedFrom p ok (tr1 ++ tr2) =
        (writesGuardedFrom p ok tr1 && writesGuardedFrom p (ok || tr1.any p) tr2) := by
  induction tr1 with
  | nil => intro ok tr2; simp [writesGuardedFrom]
  | cons e rest ih =>
    intro ok tr2
    simp only [List.cons_append, writesGuardedFrom, List.append_eq, ih (ok || p e) tr2,
      List.any_cons, Bool.and_assoc, Bool.or_assoc]

theorem writesGuardedFrom_noWrites (p : Ev → Bool) (tr : List Ev)
    (h : ∀ e ∈ tr, isAddSongEv e = false) :
    ∀ ok, writesGuardedFrom p ok tr = true := by
  induction tr with
  | nil => intro ok; rfl
  | cons e rest ih =>
    intro ok
    simp only [writesGuardedFrom, h e (List.mem_cons_self e rest), Bool.not_false,
      Bool.true_or, Bool.true_and]
    exact ih (fun x hx => h x (List.mem_cons_of_mem e hx)) _

theorem writesGuardedFrom_append_noWrites (p : Ev → Bool) (ok : Bool)
    (tr1 tr2 : List Ev) (h1 : writesGuardedFrom p ok tr1 = true)
    (h2 : ∀ e ∈ tr2, isAddSongEv e = false) :
    writesGuardedFrom p ok (tr1 ++ tr2) = true := by
  rw [writesGuardedFrom_append]
  simp [h1, writesGuardedFrom_noWrites p tr2 h2]

theorem buildSuggestions_evs (env : Env) (parsed : RawParsed)
    (rules : Option VibeRules) :
    ∀ e ∈ (buildSuggestions env parsed rules).2,
      isAddSongEv e = false ∧ isLaterStageEv e = false := by
  have hvibe : ∀ (x : Ev), isVibeEv x = true →
      isAddSongEv x = false ∧ isLaterStageEv x = false := by
    intro x hv; cases x <;> simp [isVibeEv, isAddSongEv, isLaterStageEv] at hv ⊢
  intro e he
  rcases rules with _ | r
  · cases hA : optStrTruthy parsed.artist
    · simp [buildSuggestions, hA] at he
    · simp only [buildSuggestions, hA, if_true, ite_self] at he
      rcases List.mem_cons.mp he with rfl | he
      · simp [isAddSongEv, isLaterStageEv]
      · exact hvibe e (collectSuggestions_evs _ _ [] e he)
  · rcases hm : r.allowedMoods with _ | moods <;> cases hA : optStrTruthy parsed.artist
    · simp [buildSuggestions, hA, hm] at he
    · simp only [buildSuggestions, hA, hm, if_true, ite_self] at he
      rcases List.mem_cons.mp he with rfl | he
      · simp [isAddSongEv, isLaterStageEv]
      · exact hvibe e (collectSuggestions_evs _ _ [] e he)
    · simp only [buildSuggestions, hA, hm, Bool.false_eq_true, if_false,
        List.length_nil, List.nil_append] at he
      simp only [Nat.zero_mod, beq_self_eq_true, if_true, List.nil_append] at he
      rcases List.mem_cons.mp he with rfl | he
      · simp [isAddSongEv, isLaterStageEv]
      · exact hvibe e (collectSuggestions_evs _ _ [] e he)
    · simp only [buildSuggestions, hA, hm, if_true] at he
      by_cases hlen : ((collectSuggestions (some r) []
          (env.searchSongsByText ((parsed.artist).getD "") 20)).1.length == 0) = true
      · simp only [hlen, if_true] at he
        simp only [List.mem_cons, List.mem_append] at he
        rcases he with (rfl | he) | (rfl | he)
        · simp [isAddSongEv, isLaterStageEv]
        · exact hvibe e (collectSuggestions_evs _ _ [] e he)
        · simp [isAddSongEv, isLaterStageEv]
        · exact hvibe e (collectSuggestions_evs _ _ [] e he)
      · simp only [hlen, if_false] at he
        rcases List.mem_cons.mp he with rfl | he
        · simp [isAddSongEv, isLaterStageEv]
        · exact hvibe e (collectSuggestions_evs _ _ [] e he)

theorem vibeEv_not_addSong (e : Ev) (h : isVibeEv e = true) : isAddSongEv e = false := by
  cases e <;> simp [isVibeEv, isAddSongEv] at h ⊢

theorem head?_isSome_of_length_beq_one (l : List Song) (h : (l.length == 1) = true) :
    l.head?.isSome = true := by
  cases l <;> simp_all

theorem artistOnlyStage_skipTitle (env : Env) (parsed : RawParsed)
    (rules : Option VibeRules) (hT : optStrTruthy parsed.title = true) :
    artistOnlyStage env parsed rules = Sum.inr (none, []) := by
  simp [artistOnlyStage, hT]

theorem artistOnlyStage_skipArtist (env : Env) (parsed : RawParsed)
    (rules : Option VibeRules) (hA : optStrTruthy parsed.artist = false) :
    artistOnlyStage env parsed rules = Sum.inr (none, []) := by
  simp [artistOnlyStage, hA]

theorem exactStage_skip (env : Env) (parsed : RawParsed) (song : Option Song)
    (tr : List Ev) (hT : optStrTruthy parsed.title = false) :
    exactStage env parsed song tr = (song, tr) := by
  simp [exactStage, hT]

theorem semanticStage_some (env : Env) (parsed : RawParsed) (s : Song)
    (tr : List Ev) : semanticStage env parsed (some s) tr = (some s, tr) := rfl

theorem textStage_some (env : Env) (parsed : RawParsed) (s : Song)
    (tr : List Ev) : textStage env parsed (some s) tr = (some s, tr) := rfl

theorem youtubeStage_some (env : Env) (parsed : RawParsed) (s : Song)
    (tr : List Ev) : youtubeStage env parsed (some s) tr = (some s, tr) := rfl

theorem youtubeStage_noQuery (env : Env) (parsed : RawParsed) (song : Option Song)
    (tr : List Ev) (hT : optStrTruthy parsed.title = false)
    (hA : optStrTruthy parsed.artist = false) :
    youtubeStage env parsed song tr = (song, tr) := by
  cases song with
  | some s => rfl
  | none => simp [youtubeStage, buildYoutubeQuery, hT, hA]

theorem exactStage_guardPres (p : Ev → Bool) (env : Env) (parsed : RawParsed)
    (song : Option Song) (tr : List Ev) (ok : Bool)
    (h : writesGuardedFrom p ok tr = true) :
    writesGuardedFrom p ok (exactStage env parsed song tr).2 = true := by
  by_cases hg : (optStrTruthy parsed.artist && optStrTruthy parsed.title) = true
  · simp only [exactStage, hg, if_true]
    exact writesGuardedFrom_append_noWrites p ok tr _ h
      (by intro e he; rcases List.mem_singleton.mp he with rfl; rfl)
  · simp only [exactStage, hg, if_false]
    exact h

theorem semanticStage_guardPres (p : Ev → Bool) (env : Env) (parsed : RawParsed)
    (song : Option Song) (tr : List Ev) (ok : Bool)
    (h : writesGuardedFrom p ok tr = true) :
    writesGuardedFrom p ok (semanticStage env parsed song tr).2 = true := by
  cases song with
  | some s => exact h
  | none =>
    exact writesGuardedFrom_append_noWrites p ok tr _ h (semanticLoop_evs env parsed _)

theorem textStage_guardPres (p : Ev → Bool) (env : Env) (parsed : RawParsed)
    (song : Option Song) (tr : List Ev) (ok : Bool)
    (h : writesGuardedFrom p ok tr = true) :
    writesGuardedFrom p ok (textStage env parsed song tr).2 = true := by
  cases song with
  | some s => exact h
  | none =>
    exact writesGuardedFrom_append_noWrites p ok tr _ h (textLoop_evs env parsed _)

theorem youtubeStage_guardPres (p : Ev → Bool) (hyt : ∀ q, p (Ev.youtube q) = true)
    (env : Env) (parsed : RawParsed) (song : Option Song) (tr : List Ev) (ok : Bool)
    (h : writesGuardedFrom p ok tr = true) :
    writesGuardedFrom p ok (youtubeStage env parsed song tr).2 = true := by
  cases song with
  | some s => exact h
  | none =>
    rcases hq : buildYoutubeQuery parsed with _ | q
    · simp only [youtubeStage, hq]; exact h
    · rcases hy : env.searchYouTube q with _ | y
      · simp only [youtubeStage, hq, hy]
        exact writesGuardedFrom_append_noWrites p ok tr _ h
          (by intro e he; rcases List.mem_singleton.mp he with rfl; rfl)
      · simp only [youtubeStage, hq, hy]
        rw [writesGuardedFrom_append]
        simp only [h, Bool.true_and]
        simp [writesGuardedFrom, isAddSongEv, hyt q]

theorem artistOnlyStage_inv (env : Env) (parsed : RawParsed)
    (rules : Option VibeRules) : artistOnlyInv (artistOnlyStage env parsed rules) := by
  have hfilterNW : ∀ e ∈ (filterVibeAll rules
      (env.searchSongsByText ((parsed.artist).getD "") 20)).2, isAddSongEv e = false :=
    fun e he => vibeEv_not_addSong e (filterVibeAll_evs rules _ e he)
  by_cases hg : (!(optStrTruthy parsed.title) && optStrTruthy parsed.artist) = true
  · simp only [artistOnlyStage, hg, if_true]
    split
    · -- exactly one pass
      refine ⟨writesGuardedFrom_noWrites _ _ ?_ _, writesGuardedFrom_noWrites _ _ ?_ _⟩ <;>
        · intro e he
          rcases List.mem_cons.mp he with rfl | he
          · rfl
          · exact hfilterNW e he
    · split
      · -- several passes: disambiguation chat
        refine ⟨rfl, rfl, ?_⟩
        intro e he
        rcases List.mem_cons.mp he with rfl | he
        · rfl
        · exact hfilterNW e he
      · -- zero passes: YouTube exploration
        split
        · -- a YouTube hit
          split
          · -- vibe passed: enrichment happens after the passed check
            next y hv =>
            refine ⟨?_, ?_⟩ <;>
            · rw [writesGuardedFrom_append]
              simp only [Bool.and_eq_true]
              refine ⟨?_, ?_⟩
              · apply writesGuardedFrom_noWrites
                intro e he
                simp at he
                rcases he with rfl | he | rfl | rfl | rfl
                · rfl
                · exact hfilterNW e he
                · rfl
                · rfl
                · rfl
              · simp [writesGuardedFrom, isAddSongEv, List.any_append, List.any_cons,
                  List.any_nil, isPassedVibeEv, isDiscoveryEv, hv]
          · -- vibe failed: early chat return, nothing written
            refine ⟨rfl, rfl, ?_⟩
            intro e he
            simp at he
            rcases he with rfl | he | rfl | rfl | rfl
            · rfl
            · exact hfilterNW e he
            · rfl
            · rfl
            · rfl
        · -- no YouTube hit: early chat return, nothing written
          refine ⟨rfl, rfl, ?_⟩
          intro e he
          simp at he
          rcases he with rfl | he | rfl
          · rfl
          · exact hfilterNW e he
          · rfl
  · simp only [artistOnlyStage, hg, if_false]
    exact ⟨rfl, rfl⟩

theorem artistOnlyStage_inr_some (env : Env) (parsed : RawParsed)
    (rules : Option VibeRules) (st : Option Song × List Ev)
    (hg : (!(optStrTruthy parsed.title) && optStrTruthy parsed.artist) = true)
    (h : artistOnlyStage env parsed rules = Sum.inr st) :
    st.1.isSome = true := by
  simp only [artistOnlyStage, hg, if_true] at h
  split at h
  · next hlen =>
    injection h with h2
    subst h2
    exact head?_isSome_of_length_beq_one _ hlen
  · split at h
    · exact absurd h (by simp)
    · split at h
      · split at h
        · injection h with h2
          subst h2
          rfl
        · exact absurd h (by simp)
      · exact absurd h (by simp)

theorem buildSuggestions_sound (env : Env) (parsed : RawParsed)
    (rules : Option VibeRules) :
    (buildSuggestions env parsed rules).1.length ≤ 3 ∧
    ∀ s ∈ (buildSuggestions env parsed rules).1,
      (checkVibeMatch s rules).«matches» = true := by
  have base : ∀ songs : List Song,
      (collectSuggestions rules [] songs).1.length ≤ 3 ∧
      ∀ s ∈ (collectSuggestions rules [] songs).1,
        (checkVibeMatch s rules).«matches» = true := by
    intro songs
    exact collectSuggestions_sound rules songs [] (by simp) (by intro s hs; simp at hs)
  rcases rules with _ | r
  · cases hA : optStrTruthy parsed.artist
    · simp [buildSuggestions, hA]
    · simp only [buildSuggestions, hA, if_true, ite_self]
      exact base _
  · rcases hm : r.allowedMoods with _ | moods <;> cases hA : optStrTruthy parsed.artist
    · simp [buildSuggestions, hA, hm]
    · simp only [buildSuggestions, hA, hm, if_true, ite_self]
      exact base _
    · simp only [buildSuggestions, hA, hm, Bool.false_eq_true, if_false,
        List.length_nil, List.nil_append]
      simp only [Nat.zero_mod, beq_self_eq_true, if_true]
      exact base _
    · simp only [buildSuggestions, hA, hm, if_true]
      by_cases hlen : ((collectSuggestions (some r) []
          (env.searchSongsByText ((parsed.artist).getD "") 20)).1.length == 0) = true
      · simp only [hlen, if_true]
        exact base _
      · simp only [hlen, if_false]
        exact base _

theorem singleton_vibe_noWrites (t : String) (b : Bool) :
    ∀ e ∈ [Ev.vibe t b], isAddSongEv e = false := by
  intro e he
  rcases List.mem_singleton.mp he with rfl
  rfl

theorem invoke_writes_after_discovery (env : Env) (parsed : RawParsed)
    (rules : Option VibeRules) :
    writesGuarded isDiscoveryEv (invokeDJAgent env parsed rules).2 = true := by
  unfold writesGuarded
  cases hReq : optBoolTruthy parsed.isRequest
  · simp [invokeDJAgent, hReq, writesGuardedFrom]
  · simp only [invokeDJAgent, hReq, Bool.not_true, Bool.false_eq_true, if_false]
    rcases hA : artistOnlyStage env parsed rules with er | st
    · have hi := artistOnlyStage_inv env parsed rules
      rw [hA] at hi
      exact writesGuardedFrom_noWrites _ _ hi.2.2 _
    · dsimp only
      have hi := artistOnlyStage_inv env parsed rules
      rw [hA] at hi
      have g1 := exactStage_guardPres isDiscoveryEv env parsed st.1 st.2 false hi.2
      generalize hE : exactStage env parsed st.1 st.2 = s1
      rw [hE] at g1
      have g2 := semanticStage_guardPres isDiscoveryEv env parsed s1.1 s1.2 false g1
      generalize hS : semanticStage env parsed s1.1 s1.2 = s2
      rw [hS] at g2
      have g3 := textStage_guardPres isDiscoveryEv env parsed s2.1 s2.2 false g2
      generalize hX : textStage env parsed s2.1 s2.2 = s3
      rw [hX] at g3
      have g4 := youtubeStage_guardPres isDiscoveryEv (fun q => rfl) env parsed
        s3.1 s3.2 false g3
      generalize hY : youtubeStage env parsed s3.1 s3.2 = s4
      rw [hY] at g4
      rcases s4 with ⟨os, tr4⟩
      rcases os with _ | song
      · exact g4
      · dsimp only
        split
        · exact writesGuardedFrom_append_noWrites _ _ _ _
            (writesGuardedFrom_append_noWrites _ _ _ _ g4 (singleton_vibe_noWrites _ _))
            (fun e he => (buildSuggestions_evs env parsed rules e he).1)
        · exact writesGuardedFrom_append_noWrites _ _ _ _ g4 (singleton_vibe_noWrites _ _)

theorem invoke_writes_after_vibe (env : Env) (parsed : RawParsed)
    (rules : Option VibeRules) (hT : optStrTruthy parsed.title = false) :
    writesGuarded isPassedVibeEv (invokeDJAgent env parsed rules).2 = true := by
  unfold writesGuarded
  cases hReq : optBoolTruthy parsed.isRequest
  · simp [invokeDJAgent, hReq, writesGuardedFrom]
  · cases hAr : optStrTruthy parsed.artist
    · -- artist absent too: no stage can reach the catalog writer
      have hskip := artistOnlyStage_skipArtist env parsed rules hAr
      simp only [invokeDJAgent, hReq, Bool.not_true, Bool.false_eq_true, if_false, hskip]
      have g1 := exactStage_guardPres isPassedVibeEv env parsed none [] false rfl
      generalize hE : exactStage env parsed none [] = s1
      rw [hE] at g1
      have g2 := semanticStage_guardPres isPassedVibeEv env parsed s1.1 s1.2 false g1
      generalize hS : semanticStage env parsed s1.1 s1.2 = s2
      rw [hS] at g2
      have g3 := textStage_guardPres isPassedVibeEv env parsed s2.1 s2.2 false g2
      generalize hX : textStage env parsed s2.1 s2.2 = s3
      rw [hX] at g3
      rw [youtubeStage_noQuery env parsed s3.1 s3.2 hT hAr]
      rcases s3 with ⟨os, tr3⟩
      rcases os with _ | song
      · exact g3
      · dsimp only
        split
        · exact writesGuardedFrom_append_noWrites _ _ _ _
            (writesGuardedFrom_append_noWrites _ _ _ _ g3 (singleton_vibe_noWrites _ _))
            (fun e he => (buildSuggestions_evs env parsed rules e he).1)
        · exact writesGuardedFrom_append_noWrites _ _ _ _ g3 (singleton_vibe_noWrites _ _)
    · -- artist-only exploration ran; its write is behind its vibe check
      have hg : (!(optStrTruthy parsed.title) && optStrTruthy parsed.artist) = true := by
        simp [hT, hAr]
      simp only [invokeDJAgent, hReq, Bool.not_true, Bool.false_eq_true, if_false]
      rcases hA : artistOnlyStage env parsed rules with er | st
      · have hi := artistOnlyStage_inv env parsed rules
        rw [hA] at hi
        exact writesGuardedFrom_noWrites _ _ hi.2.2 _
      · dsimp only
        have hi := artistOnlyStage_inv env parsed rules
        rw [hA] at hi
        have hsome := artistOnlyStage_inr_some env parsed rules st hg hA
        rcases hst : st.1 with _ | s0
        · rw [hst] at hsome; simp at hsome
        · rw [exactStage_skip env parsed (some s0) st.2 hT]
          simp only [semanticStage_some, textStage_some, youtubeStage_some]
          split
          · exact writesGuardedFrom_append_noWrites _ _ _ _
              (writesGuardedFrom_append_noWrites _ _ _ _ hi.1 (singleton_vibe_noWrites _ _))
              (fun e he => (buildSuggestions_evs env parsed rules e he).1)
          · exact writesGuardedFrom_append_noWrites _ _ _ _ hi.1 (singleton_vibe_noWrites _ _)

theorem invoke_song_iff_accept (env : Env) (parsed : RawParsed)
    (rules : Option VibeRules) :
    ((invokeDJAgent env parsed rules).1.song.isSome) =
    ((invokeDJAgent env parsed rules).1.type == "AI_ACCEPT") := by
  cases hReq : optBoolTruthy parsed.isRequest
  · simp only [invokeDJAgent, hReq, Bool.not_false, if_true]
    decide
  · simp only [invokeDJAgent, hReq, Bool.not_true, Bool.false_eq_true, if_false]
    rcases hA : artistOnlyStage env parsed rules with er | st
    · have hi := artistOnlyStage_inv env parsed rules
      rw [hA] at hi
      rw [hi.1, hi.2.1]
      decide
    · dsimp only
      split
      · dsimp only
        decide
      · split
        · dsimp only
          decide
        · simp

/-! ## Claim theorems -/

set_option maxHeartbeats 1000000

/-- C4: `checkVibeMatch(entry, ruleSet)` runs its checks in the stated order —
blocked moods, then allowed moods, then era/year bounds, then blocked artists —
with the first failing check determining the `(matches=false, reason)` result;
if the rule set is absent or no check fails, the result is `matches=true`.
Stated as: the source function coincides with the reference evaluator
`evaluateOrdered`, which tries the four checks in exactly that order, returns
the first failure's reason, and yields a permissive match otherwise. -/
theorem C4_rule_engine_order (song : Song) (rules : Option VibeRules) :
    checkVibeMatch song rules = evaluateOrdered song rules := by
  cases rules with
  | none => rfl
  | some r =>
    obtain ⟨amoods, bmoods, eras, bartists⟩ := r
    obtain ⟨t, a, alb, yr, yid, cov, moodF, g⟩ := song
    simp only [checkVibeMatch, evaluateOrdered, orderedChecks, List.findSome?,
      blockedMoodsCheck, allowedMoodsCheck, eraBoundsCheck, blockedArtistsCheck]
    rcases bmoods with _ | bms <;> rcases moodF with _ | sm <;>
      rcases amoods with _ | ams <;> rcases eras with _ | er <;>
      rcases yr with _ | y <;> rcases bartists with _ | bas <;>
      dsimp only <;> repeat' split
    all_goals simp_all

/-- C10: for a rule set with a non-empty `allowedMoods` list, a song whose
mood field is null bypasses both the blocked-mood and the allowed-mood checks:
the result equals the evaluation under a rule set with both mood rules
removed, and in particular it is `matches=true` exactly when the era and
blocked-artist checks pass — even though the song matches none of the allowed
moods. -/
theorem C10_null_mood_bypass (rules : VibeRules) (ams : List String) (song : Song)
    (hAllowed : rules.allowedMoods = some ams) (_hne : ams ≠ [])
    (hmood : song.mood = none) :
    checkVibeMatch song (some rules) =
      checkVibeMatch song
        (some { rules with blockedMoods := none, allowedMoods := none }) ∧
    (checkVibeMatch song (some rules)).«matches» =
      ((eraBoundsCheck song rules).isNone &&
        (blockedArtistsCheck song rules).isNone) := by
  obtain ⟨am, bm, eras, ba⟩ := rules
  dsimp only at hAllowed
  subst hAllowed
  constructor
  · rcases bm with _ | bms <;>
      simp [checkVibeMatch, hmood]
  · rcases bm with _ | bms <;>
      simp only [checkVibeMatch, eraBoundsCheck, blockedArtistsCheck, hmood] <;>
      repeat' split <;> simp_all

/-- C10 witness: a rule set allowing only "happy" and a song with no mood
field; the bypass equality holds and the song is accepted. -/
theorem C10_null_mood_bypass_witness :
    (checkVibeMatch moodlessSong (some happyRules) =
      checkVibeMatch moodlessSong
        (some { happyRules with blockedMoods := none, allowedMoods := none })) ∧
    (checkVibeMatch moodlessSong (some happyRules)).«matches» = true :=
  ⟨(C10_null_mood_bypass happyRules ["happy"] moodlessSong rfl
      (by decide) rfl).1, by decide⟩

/-- C9: when the extraction output fails to decode (the `catch` branch) the
interpreter returns the `isRequest=false` fallback, and whenever the parsed
request is not a request (including a missing `isRequest` field), the run
terminates as the not-a-request chat outcome with no collaborator calls and no
error propagated (the embedding is total). -/
theorem C9_soft_fail (env : Env) (rules : Option VibeRules)
    (decoded : Option RawParsed) :
    (decoded = none → parseSongRequest decoded = fallbackParsed) ∧
    (optBoolTruthy ((parseSongRequest decoded).isRequest) = false →
      invokeDJAgent env (parseSongRequest decoded) rules =
        ({ type := "CHAT", song := none, suggestion := none, options := none },
         [])) := by
  refine ⟨?_, ?_⟩
  · intro h; subst h; rfl
  · intro h
    simp [invokeDJAgent, h]

/-- C9 witness: a failed decode yields the fallback and a collaborator-free
chat outcome. -/
theorem C9_soft_fail_witness :
    parseSongRequest none = fallbackParsed ∧
    invokeDJAgent emptyEnv (parseSongRequest none) none =
      ({ type := "CHAT", song := none, suggestion := none, options := none },
       []) :=
  ⟨(C9_soft_fail emptyEnv none none).1 rfl,
   (C9_soft_fail emptyEnv none none).2 (by decide)⟩

/-- C3: once Stage A (the exact catalog match) succeeds for a run, no later
stage executes — the trace contains no semantic-search call, no Stage-D
text-search-fallback call (limit 5), and no YouTube discovery call. -/
theorem C3_stageA_short_circuit (env : Env) (parsed : RawParsed)
    (rules : Option VibeRules) (s : Song)
    (hReq : optBoolTruthy parsed.isRequest = true)
    (hT : optStrTruthy parsed.title = true)
    (hA : optStrTruthy parsed.artist = true)
    (hE : env.findExactSong ((parsed.title).getD "") ((parsed.artist).getD "") =
      some s) :
    ∀ e ∈ (invokeDJAgent env parsed rules).2, isLaterStageEv e = false := by
  have hskip := artistOnlyStage_skipTitle env parsed rules hT
  have hEx : exactStage env parsed none [] =
      (some s, [Ev.exact ((parsed.title).getD "") ((parsed.artist).getD "")]) := by
    simp [exactStage, hT, hA, hE]
  simp only [invokeDJAgent, hReq, Bool.not_true, Bool.false_eq_true, if_false, hskip]
  rw [hEx]
  simp only [semanticStage_some, textStage_some, youtubeStage_some]
  split
  · intro e he
    simp at he
    rcases he with rfl | rfl | he
    · rfl
    · rfl
    · exact (buildSuggestions_evs env parsed rules e he).2
  · intro e he
    simp at he
    rcases he with rfl | rfl
    · rfl
    · rfl

/-- C3 witness: a run with an exact catalog hit; its trace has no later-stage
collaborator call. -/
theorem C3_stageA_short_circuit_witness :
    ((invokeDJAgent exactEnv exactParsed (some happyRules)).2.all
      (fun e => !isLaterStageEv e)) = true := by
  have h := C3_stageA_short_circuit exactEnv exactParsed (some happyRules)
    exactSong rfl (by decide) (by decide) (by decide)
  refine List.all_eq_true.mpr ?_
  intro e he
  simp [h e he]

/-- C6 counterexample: with title=null, artist=null but a non-empty
`searchVariations` list, the claim fails — a semantic-search collaborator IS
invoked (on the variation) and the run can even resolve: here it returns
`AI_ACCEPT`, not the not-found outcome. -/
theorem C6_counterexample :
    (invokeDJAgent semanticEnv noFieldsParsed none).1.type = "AI_ACCEPT" ∧
    ((invokeDJAgent semanticEnv noFieldsParsed none).2.any isSearchCollabEv)
      = true ∧
    noFieldsParsed.title = none ∧ noFieldsParsed.artist = none := by
  refine ⟨?_, ?_, rfl, rfl⟩ <;> decide

/-- C6 (amended): for a structured request with null title, null artist AND
an absent or empty `searchVariations` list, resolution returns the not-found
outcome and no collaborator is invoked (the trace is empty). -/
theorem C6_nofields_notfound (env : Env) (rules : Option VibeRules)
    (parsed : RawParsed) (hT : parsed.title = none) (hA : parsed.artist = none)
    (hReq : optBoolTruthy parsed.isRequest = true)
    (hV : parsed.searchVariations = none ∨ parsed.searchVariations = some []) :
    invokeDJAgent env parsed rules =
      ({ type := "AI_DENY", song := none, suggestion := none, options := none },
       []) := by
  have hTf : optStrTruthy parsed.title = false := by rw [hT]; rfl
  have hAf : optStrTruthy parsed.artist = false := by rw [hA]; rfl
  have hq : searchQueries parsed = [none] := by
    rcases hV with h | h <;> simp [searchQueries, h, hT]
  have hsemLoop : semanticLoop env parsed [none] = (none, []) := by
    simp [semanticLoop, optStrTruthy]
  have htextLoop : textLoop env parsed [none] = (none, []) := by
    simp [textLoop, optStrTruthy]
  have hsem : semanticStage env parsed none [] = (none, []) := by
    simp [semanticStage, hq, hsemLoop]
  have htext : textStage env parsed none [] = (none, []) := by
    simp [textStage, hq, htextLoop]
  simp only [invokeDJAgent, hReq, Bool.not_true, Bool.false_eq_true, if_false,
    artistOnlyStage_skipArtist env parsed rules hAf]
  rw [exactStage_skip env parsed none [] hTf]
  rw [hsem]
  rw [htext]
  rw [youtubeStage_noQuery env parsed none [] hTf hAf]

/-- C6 witness: the empty request against the empty environment resolves to
the not-found outcome with an empty trace. -/
theorem C6_nofields_notfound_witness :
    invokeDJAgent emptyEnv emptyReqParsed (some happyRules) =
      ({ type := "AI_DENY", song := none, suggestion := none, options := none },
       []) :=
  C6_nofields_notfound emptyEnv (some happyRules) emptyReqParsed rfl rfl
    (by decide) (Or.inl rfl)

/-- C1 counterexample: a titled request that misses the catalog and is served
by YouTube discovery; `addSongToCatalog` is invoked before the vibe check, and
the run's only vibe check then fails — a catalog write with no preceding
successful validation, refuting "no catalog write occurs before validation
succeeds". -/
theorem C1_counterexample :
    ((invokeDJAgent discoveryEnv titledParsed (some happyRules)).2.any
      isAddSongEv) = true ∧
    writesGuarded isPassedVibeEv
      (invokeDJAgent discoveryEnv titledParsed (some happyRules)).2 = false ∧
    (invokeDJAgent discoveryEnv titledParsed (some happyRules)).1.type
      = "AI_DENY" := by
  refine ⟨?_, ?_, ?_⟩ <;> decide

/-- C1 (amended): every catalog write is preceded by a discovery (YouTube)
call — enrichment only happens for discovery-sourced candidates — and in the
artist-only path (null title) every catalog write is additionally preceded by
a passed vibe check; in the titled discovery path the write happens before
validation. -/
theorem C1_enrichment_guard (env : Env) (parsed : RawParsed)
    (rules : Option VibeRules) :
    writesGuarded isDiscoveryEv (invokeDJAgent env parsed rules).2 = true ∧
    (optStrTruthy parsed.title = false →
      writesGuarded isPassedVibeEv (invokeDJAgent env parsed rules).2 = true) :=
  ⟨invoke_writes_after_discovery env parsed rules,
   fun hT => invoke_writes_after_vibe env parsed rules hT⟩

/-- C1 witness: an artist-only run against a discovery environment; both
guard properties hold at this concrete input. -/
theorem C1_enrichment_guard_witness :
    writesGuarded isDiscoveryEv
      (invokeDJAgent discoveryEnv artistParsed (some happyRules)).2 = true ∧
    writesGuarded isPassedVibeEv
      (invokeDJAgent discoveryEnv artistParsed (some happyRules)).2 = true :=
  ⟨(C1_enrichment_guard discoveryEnv artistParsed (some happyRules)).1,
   (C1_enrichment_guard discoveryEnv artistParsed (some happyRules)).2 rfl⟩

/-- C2 counterexample: the basic agent variant (src/agents/djAgent.js) builds
its rejection suggestions from `getSongsByMood` without re-validation; a
mood-matching song by a blocked artist is returned as a suggestion although it
itself fails `checkVibeMatch`. -/
theorem C2_counterexample :
    drakeSong ∈ basicAgentSuggestions moodEnv (some happyNoDrakeRules) ∧
    (checkVibeMatch drakeSong (some happyNoDrakeRules)).«matches» = false := by
  refine ⟨?_, ?_⟩ <;> decide

/-- C2 (amended): in the full pipeline's suggestion finder, for every
environment, request and rule set, the alternatives list has length at most 3
and every element independently passes `checkVibeMatch` against the same rule
set. -/
theorem C2_suggestions_verified (env : Env) (parsed : RawParsed)
    (rules : Option VibeRules) :
    (buildSuggestions env parsed rules).1.length ≤ 3 ∧
    ∀ s ∈ (buildSuggestions env parsed rules).1,
      (checkVibeMatch s rules).«matches» = true :=
  buildSuggestions_sound env parsed rules

/-- C2 witness: at a concrete environment the suggestion list is the
mood-pool song and it passes the vibe check. -/
theorem C2_suggestions_verified_witness :
    (buildSuggestions moodEnv titledParsed (some happyRules)).1.length ≤ 3 ∧
    (checkVibeMatch drakeSong (some happyRules)).«matches» = true :=
  ⟨(C2_suggestions_verified moodEnv titledParsed (some happyRules)).1,
   (C2_suggestions_verified moodEnv titledParsed (some happyRules)).2
     drakeSong (by decide)⟩

/-- C5 counterexample: a run whose found candidate fails the vibe check — a
Rejected outcome (the trace records the failed check on the candidate) — yet
the returned object carries `song = null`, refuting "candidate present iff
status ∈ {Resolved, Rejected}". -/
theorem C5_counterexample :
    (invokeDJAgent exactEnv exactParsed (some happyRules)).1 =
      { type := "AI_DENY", song := none, suggestion := none, options := none } ∧
    (Ev.vibe "Blinding Lights" false) ∈
      (invokeDJAgent exactEnv exactParsed (some happyRules)).2 := by
  refine ⟨?_, ?_⟩ <;> decide

/-- C5 (amended): the returned object carries a candidate song exactly when
the outcome is the accepted (Resolved) one; Rejected and NotFound outcomes
both return `song = null`. -/
theorem C5_candidate_iff_accept (env : Env) (parsed : RawParsed)
    (rules : Option VibeRules) :
    ((invokeDJAgent env parsed rules).1.song.isSome) =
    ((invokeDJAgent env parsed rules).1.type == "AI_ACCEPT") :=
  invoke_song_iff_accept env parsed rules

/-- C7: the `SongCatalog` schema declares no unique constraint on
`(title, artist)` — only the primary key on the always-fresh `id` — so
`ON CONFLICT DO NOTHING` never fires for a duplicated pair: adding the same
(title, artist) twice yields TWO rows, contradicting the intended
insert-if-absent semantics the clause documents. -/
theorem C7_duplicate_rows :
    (rowsFor
      (addSongToCatalog
        (addSongToCatalog {} (songFromYoutube sadYtHit sadAnalysis) sadAnalysis).1
        (songFromYoutube sadYtHit sadAnalysis) sadAnalysis).1
      "Moonlight Drive" "The Doors").length = 2 := by
  decide

/-- C8: a semantic hit is accepted for a requested title only when at least
half of the requested title's significant words (length > 2) occur in the
hit's title: a valid hit satisfies `2·|overlap| ≥ |significant|`; with 3
significant words at least 2 must occur, and with a single significant word
that word must be contained in the hit's title. -/
theorem C8_word_overlap (parsed : RawParsed) (r : Song) (t : String)
    (h : parsed.title = some t) (hv : semanticHitValid parsed r = true) :
    (significantWords t).length ≤ 2 * (overlapWords t r.title).length ∧
    ((significantWords t).length = 3 → 2 ≤ (overlapWords t r.title).length) ∧
    ((significantWords t).length = 1 →
      strContains (lowerStr r.title) ((significantWords t).headD "") = true) := by
  by_cases ht : t = ""
  · subst ht
    have h0 : significantWords "" = [] := by decide
    refine ⟨?_, ?_, ?_⟩ <;> rw [h0] <;> simp
  · have htt : optStrTruthy (some t) = true := by simpa [optStrTruthy] using ht
    simp only [semanticHitValid, h, htt, if_true, Option.getD_some,
      Bool.and_eq_true] at hv
    have h1 := hv.1
    simp only [Bool.not_eq_true', decide_eq_false_iff_not, not_lt] at h1
    simp only [significantWords, overlapWords]
    refine ⟨by omega, fun hn => by omega, ?_⟩
    intro hn
    rcases hsig : (jsSplitWs (lowerStr t)).filter (fun w => w.length > 2)
      with _ | ⟨w, rest⟩
    · rw [hsig] at hn; simp at hn
    · rw [hsig] at hn
      rcases rest with _ | ⟨w2, rest2⟩
      · rw [hsig] at h1 ⊢
        by_cases hw : strContains (lowerStr r.title) w = true
        · simpa using hw
        · simp only [Bool.not_eq_true] at hw
          simp [List.filter_cons, hw] at h1
      · simp at hn

/-- C8 witness: the 3-significant-word request "blinding lights tonight"
validated against a hit containing exactly two of them. -/
theorem C8_word_overlap_witness :
    (significantWords "blinding lights tonight").length = 3 ∧
    semanticHitValid
      { title := some "blinding lights tonight", artist := none,
        isRequest := some true, searchVariations := none }
      { exactSong with title := "Blinding Lights (tonight mix)" } = true ∧
    2 ≤ (overlapWords "blinding lights tonight"
          "Blinding Lights (tonight mix)").length :=
  ⟨by decide, by decide,
   (C8_word_overlap
      { title := some "blinding lights tonight", artist := none,
        isRequest := some true, searchVariations := none }
      { exactSong with title := "Blinding Lights (tonight mix)" }
      "blinding lights tonight" rfl (by decide)).2.1 (by decide)⟩

end Mazaj
